import Mathlib

/-!
Shallow embedding of `zaza/openstack/charm_tests/policyd/tests.py`, the
policy-override (policyd) charm test protocol.  Pure parts of the source
(zip building, path construction, probe outcome handling, teardown cleanup)
are modelled as Lean functions; each test method is modelled as the ordered
trace of deployment-layer operations it issues.  The semantics of the
external blocking awaits (the `zaza.model` layer, spec sections 4.2 to 4.5)
is modelled from the spec, since that layer is not part of the sources here.
-/

namespace Policyd

/-- Model of the zip archive artifact: the list of (entry name, contents)
pairs in write order, as produced by successive `zipfile.ZipFile.writestr`
calls on an archive opened in mode "w". -/
structure ZipFile where
  entries : List (String × String)
deriving DecidableEq

/-- Model of `zipfile.ZipFile.writestr`: appends one entry to the archive. -/
def ZipFile.writestr (z : ZipFile) (entryName contents : String) : ZipFile :=
  ZipFile.mk (z.entries ++ [(entryName, contents)])

/-- Model of reading one member back from the archive by name; when a name is
duplicated the entry written last wins, as in the zipfile name index. -/
def ZipFile.read (z : ZipFile) (entryName : String) : Option String :=
  z.entries.reverse.lookup entryName

/-- Bool test that the first string is a leading piece of the second, computed
on the underlying character lists. -/
def infoStartsWith (pre info : String) : Bool :=
  pre.toList.isPrefixOf info.toList

/-- Bool test that the first string is a trailing piece of the second. -/
def infoEndsWith (suf info : String) : Bool :=
  suf.toList.isSuffixOf info.toList

/-- Model of POSIX `os.path.join` restricted to two components, as used by
the source for the zip path and the policy.d path. -/
def posixJoin (a b : String) : String :=
  if infoStartsWith "/" b then b
  else if a = "" then a ++ b
  else if infoEndsWith "/" a then a ++ b
  else a ++ "/" ++ b

/-- Model of `PolicydTest._make_zip_file_from`: joins the class temp dir with
the requested zip name, then writes every (name, contents) pair of `files`,
in iteration order, into a fresh archive; returns the artifact path together
with the archive content.  No validation of `files` is performed. -/
def make_zip_file_from (tmpDir zipName : String)
    (files : List (String × String)) : String × ZipFile :=
  (posixJoin tmpDir zipName,
   files.foldl (fun z e => z.writestr e.1 e.2) (ZipFile.mk []))

/-- Expected remote path `os.path.join("/etc", service, "policy.d", fname)`
of a policy file dropped by the override. -/
def policyd_path (service fname : String) : String :=
  posixJoin (posixJoin (posixJoin "/etc" service) "policy.d") fname

/-- Deployment-layer operation issued by a policyd test method.  Trigger
operations (`attachResource`, `setConfig`) are fire-and-forget; the
`blockUntil`... operations are the blocking awaits of `zaza.model`. -/
inductive Op where
  | attachResource (app resource zipPath : String) (z : ZipFile)
  | setConfig (app key value : String)
  | blockUntilAllUnitsIdle
  | blockUntilWlStatusInfoStartsWith (app pre : String) (negateMatch : Bool)
  | blockUntilFileHasContents (app path contents : String)
  | blockUntilFileMissing (app path : String)
deriving DecidableEq

/-- Model of `PolicydTest._set_config`: sets the single key
"use-policyd-override" to the string "True" or "False". -/
def setConfigOp (app : String) (state : Bool) : Op :=
  Op.setConfig app "use-policyd-override" (if state then "True" else "False")

/-- The good bundle of `test_001_policyd_good_yaml`: one file `file1.yaml`
holding the flow-style yaml text `{'rule1': '!'}` (braces escaped here). -/
def goodFiles : List (String × String) :=
  [("file1.yaml", "\x7b\x27rule1\x27: \x27!\x27\x7d")]

/-- The malformed bundle of `test_002_policyd_bad_yaml`: one file
`file2.yaml` holding the broken yaml text `{'rule': '!}` with an unclosed
quote (braces escaped here). -/
def badFiles : List (String × String) :=
  [("file2.yaml", "\x7b\x27rule\x27: \x27!\x7d")]

/-- Operation trace of `PolicydTest.test_001_policyd_good_yaml`: attach the
good zip, wait idle, enable the override, await the exact file content and
the "PO:" status prefix, then disable and run the double-check sequence
before awaiting file absence. -/
def test_001_policyd_good_yaml_trace (tmpDir app svc : String) : List Op :=
  [ Op.attachResource app "policyd-override"
      (make_zip_file_from tmpDir "good.zip" goodFiles).1
      (make_zip_file_from tmpDir "good.zip" goodFiles).2,
    Op.blockUntilAllUnitsIdle,
    setConfigOp app true,
    Op.blockUntilFileHasContents app (policyd_path svc "file1.yaml")
      "rule1: \x27!\x27",
    Op.blockUntilWlStatusInfoStartsWith app "PO:" false,
    setConfigOp app false,
    Op.blockUntilWlStatusInfoStartsWith app "PO:" true,
    Op.blockUntilAllUnitsIdle,
    Op.blockUntilWlStatusInfoStartsWith app "PO:" true,
    Op.blockUntilFileMissing app (policyd_path svc "file1.yaml") ]

/-- Operation trace of `PolicydTest.test_002_policyd_bad_yaml`: attach the
bad zip, wait idle, enable the override, await the "PO (broken):" status
prefix, wait idle, await that the file never landed, then set the override
config to True once more and wait idle. -/
def test_002_policyd_bad_yaml_trace (tmpDir app svc : String) : List Op :=
  [ Op.attachResource app "policyd-override"
      (make_zip_file_from tmpDir "bad.zip" badFiles).1
      (make_zip_file_from tmpDir "bad.zip" badFiles).2,
    Op.blockUntilAllUnitsIdle,
    setConfigOp app true,
    Op.blockUntilWlStatusInfoStartsWith app "PO (broken):" false,
    Op.blockUntilAllUnitsIdle,
    Op.blockUntilFileMissing app (policyd_path svc "file2.yaml"),
    setConfigOp app true,
    Op.blockUntilAllUnitsIdle ]

/-- Operation trace of `PolicydTest._set_policy_with`: build and attach the
rules zip, enable the override, then block until the workload status info
line does NOT start with "PO:" (the call passes negate_match=True). -/
def set_policy_with_trace (tmpDir app : String)
    (rules : List (String × String)) : List Op :=
  [ Op.attachResource app "policyd-override"
      (make_zip_file_from tmpDir "rules.zip" rules).1
      (make_zip_file_from tmpDir "rules.zip" rules).2,
    setConfigOp app true,
    Op.blockUntilWlStatusInfoStartsWith app "PO:" true ]

/-- One addressable unit of the target application: its workload status info
line, whether it is idle, and its visible file system as a path map. -/
structure UnitState where
  statusInfo : String
  idle : Bool
  files : List (String × String)
deriving DecidableEq

/-- Observed state of the whole target application at one polling instant. -/
structure World where
  units : List UnitState
deriving DecidableEq

/-- Status predicate of `block_until_wl_status_info_starts_with`: a plain or
negated check that the info line starts with the given piece of text. -/
def statusPred (pre : String) (negateMatch : Bool) (info : String) : Bool :=
  if negateMatch then !(infoStartsWith pre info) else infoStartsWith pre info

/-- Modelled from the spec: satisfaction of one deployment-layer operation
against one observed world.  The blocking awaits of `zaza.model` (status
checker 4.3, file checker 4.4, idle barrier 4.5) are not part of the sources
here; per the spec each predicate must hold on every unit simultaneously,
and the file-content check requires the exact expected content.  Trigger
operations impose no condition. -/
def opHolds (w : World) : Op → Bool
  | Op.blockUntilAllUnitsIdle => w.units.all (fun u => u.idle)
  | Op.blockUntilWlStatusInfoStartsWith _ pre neg =>
      w.units.all (fun u => statusPred pre neg u.statusInfo)
  | Op.blockUntilFileHasContents _ path contents =>
      w.units.all (fun u => u.files.lookup path == some contents)
  | Op.blockUntilFileMissing _ path =>
      w.units.all (fun u => (u.files.lookup path).isNone)
  | _ => true

/-- Modelled from the spec: a trace of operations succeeds along a sequence
of observed worlds, one world per operation, when every operation's
condition holds at its own instant.  A run that would block forever has no
such world sequence for the remaining operations. -/
def traceHolds : List Op → List World → Bool
  | [], _ => true
  | _ :: _, [] => false
  | op :: ops, w :: ws => opHolds w op && traceHolds ops ws

/-- The double-check sequence required after a disable transition: negated
"PO:" check, fleet idle barrier, negated "PO:" check again. -/
def disableDoubleCheck (app : String) : List Op :=
  [ Op.blockUntilWlStatusInfoStartsWith app "PO:" true,
    Op.blockUntilAllUnitsIdle,
    Op.blockUntilWlStatusInfoStartsWith app "PO:" true ]

/-- Recognizer of the disable transition: the configuration operation that
sets "use-policyd-override" to "False" on the application under test. -/
def isDisableOp (app : String) : Op → Bool
  | Op.setConfig a k v =>
      decide (a = app ∧ k = "use-policyd-override" ∧ v = "False")
  | _ => false

/-- Discipline check over a trace: every disable transition is immediately
followed by exactly the three-step double-check sequence. -/
def followsDisableDiscipline (app : String) : List Op → Bool
  | [] => true
  | op :: rest =>
      (!(isDisableOp app op) || decide (rest.take 3 = disableDoubleCheck app))
        && followsDisableDiscipline app rest

/-- Recognizer of a positive (non-negated) "PO:" status prefix await. -/
def isPositivePOCheck : Op → Bool
  | Op.blockUntilWlStatusInfoStartsWith _ p neg => decide (p = "PO:") && !neg
  | _ => false

/-- Recognizer of a file-content await; the bad-bundle path must never
issue one. -/
def isContentCheckOp : Op → Bool
  | Op.blockUntilFileHasContents _ _ _ => true
  | _ => false

/-- Recognizer of any configuration write to "use-policyd-override". -/
def isOverrideConfigOp : Op → Bool
  | Op.setConfig _ k _ => decide (k = "use-policyd-override")
  | _ => false

/-- Value a configuration key is left with after a trace completes: the last
`setConfig` of that key wins; `none` when the trace never writes it. -/
def finalConfigValue (key : String) (t : List Op) : Option String :=
  t.foldl
    (fun acc op =>
      match op with
      | Op.setConfig _ k v => if k = key then some v else acc
      | _ => acc)
    none

/-- Response observed by one live verification probe call
(`keystone_client.services.list()`): a normal return, the explicit
`keystoneauth1.exceptions.http.Forbidden`, or any other failure. -/
inductive ProbeResponse where
  | success
  | forbidden
  | transportFailure
deriving DecidableEq

/-- Classification of a probe response (spec VerificationOutcome). -/
inductive Outcome where
  | allowed
  | denied
  | error
deriving DecidableEq

/-- Classification implicit in the try/except structure of
`KeystonePolicydTest.test_disable_service`: a normal return is ALLOWED, the
explicit Forbidden response is DENIED, and any other failure is ERROR. -/
def classifyProbe : ProbeResponse → Outcome
  | ProbeResponse.success => Outcome.allowed
  | ProbeResponse.forbidden => Outcome.denied
  | ProbeResponse.transportFailure => Outcome.error

/-- Result of running the per-address probe body: the body completes, or it
raises `zaza_exceptions.PolicydError` with a message, or an uncaught
exception propagates out of the test. -/
inductive StepResult where
  | passed
  | policydError (msg : String)
  | propagated
deriving DecidableEq

/-- Message raised when the privileged call succeeds although the denying
override is enabled. -/
def admin_fail_msg (ip : String) : String :=
  "Retrieve service list as admin with project scoped "
    ++ "token passed and should have failed. IP = " ++ ip

/-- Message raised when the call is still forbidden although the override
has been disabled. -/
def demo_fail_msg (ip : String) : String :=
  "Retrieve services list as demo user with project "
    ++ "scoped token passed and should have passed. IP = " ++ ip

/-- Per-address body of the first loop of
`KeystonePolicydTest.test_disable_service`, run while the denying override
is enabled: a successful `services.list()` raises PolicydError, the
Forbidden response is the expected denial, and any other exception is not
caught and propagates. -/
def enabledProbeStep (ip : String) (resp : ProbeResponse) : StepResult :=
  match resp with
  | ProbeResponse.success => StepResult.policydError (admin_fail_msg ip)
  | ProbeResponse.forbidden => StepResult.passed
  | ProbeResponse.transportFailure => StepResult.propagated

/-- Per-address body of the second loop of
`KeystonePolicydTest.test_disable_service`, run after the override has been
disabled: a successful `services.list()` is the expected outcome, the
Forbidden response raises PolicydError, and any other exception is not
caught and propagates. -/
def disabledProbeStep (ip : String) (resp : ProbeResponse) : StepResult :=
  match resp with
  | ProbeResponse.success => StepResult.passed
  | ProbeResponse.forbidden => StepResult.policydError (demo_fail_msg ip)
  | ProbeResponse.transportFailure => StepResult.propagated

/-- The for-loop over `self.keystone_ips`: run the per-address body on each
address in order; the first raise or propagated exception aborts the loop. -/
def runProbeLoop (step : String → ProbeResponse → StepResult)
    (responses : String → ProbeResponse) : List String → StepResult
  | [] => StepResult.passed
  | ip :: rest =>
      match step ip (responses ip) with
      | StepResult.passed => runProbeLoop step responses rest
      | StepResult.policydError m => StepResult.policydError m
      | StepResult.propagated => StepResult.propagated

/-- Model of `shutil.rmtree(dir, ignore_errors=...)`: with `ignore_errors`
set, a filesystem error during removal is suppressed and the call returns
normally. -/
def rmtree (ignoreErrors : Bool) (fsError : Option String) :
    Except String Unit :=
  match fsError with
  | none => Except.ok ()
  | some e => if ignoreErrors then Except.ok () else Except.error e

/-- Model of the `try ... except Exception: logging.error(...)` wrapper of
`PolicydTest.tearDownClass`: any error from the body is caught and logged,
never re-raised. -/
def tryExceptLog (body : Except String Unit) : Except String Unit :=
  match body with
  | Except.ok _ => Except.ok ()
  | Except.error _ => Except.ok ()

/-- Model of the cleanup step of `PolicydTest.tearDownClass`: remove the
class temp dir with `ignore_errors=True`, inside the catch-all wrapper. -/
def tearDownClassCleanup (fsError : Option String) : Except String Unit :=
  tryExceptLog (rmtree true fsError)

/-- Concrete idle unit with the override inactive, used by witnesses. -/
def uIdle : UnitState :=
  UnitState.mk "Unit is ready" true []

/-- Concrete unit with the good override active, used by witnesses. -/
def uActive : UnitState :=
  UnitState.mk "PO: Unit is ready"
    true
    [("/etc/keystone/policy.d/file1.yaml", "rule1: \x27!\x27")]

/-- Concrete unit reporting the broken override, used by witnesses. -/
def uBroken : UnitState :=
  UnitState.mk "PO (broken): yaml failed to load" true []

/-- Concrete world sequence on which the good-bundle trace succeeds. -/
def c1Worlds : List World :=
  [ World.mk [uIdle], World.mk [uIdle], World.mk [uIdle],
    World.mk [uActive], World.mk [uActive], World.mk [uActive],
    World.mk [uIdle], World.mk [uIdle], World.mk [uIdle], World.mk [uIdle] ]

/-- Concrete world sequence on which the bad-bundle trace succeeds. -/
def c3Worlds : List World :=
  [ World.mk [uIdle], World.mk [uIdle], World.mk [uIdle],
    World.mk [uBroken], World.mk [uBroken], World.mk [uBroken],
    World.mk [uBroken], World.mk [uBroken] ]

/-- Folding `writestr` over a file list appends that list to the entries. -/
theorem foldl_writestr_entries (files : List (String × String))
    (acc : List (String × String)) :
    (files.foldl (fun z e => z.writestr e.1 e.2) (ZipFile.mk acc)).entries
      = acc ++ files := by
  induction files generalizing acc with
  | nil => simp
  | cons e rest ih =>
    rw [List.foldl_cons]
    have hstep : (ZipFile.mk acc).writestr e.1 e.2
        = ZipFile.mk (acc ++ [(e.1, e.2)]) := rfl
    rw [hstep, ih]
    simp

/-- The archive produced by the bundle builder holds exactly the requested
entries, in order. -/
theorem make_zip_entries (tmpDir zipName : String)
    (files : List (String × String)) :
    (make_zip_file_from tmpDir zipName files).2.entries = files := by
  simpa using foldl_writestr_entries files []

/-- With pairwise distinct keys, association lookup finds the stored value. -/
theorem lookup_of_nodup (l : List (String × String))
    (h : (l.map Prod.fst).Nodup) (p c : String) (hm : (p, c) ∈ l) :
    l.lookup p = some c := by
  induction l with
  | nil => cases hm
  | cons e rest ih =>
    obtain ⟨k, v⟩ := e
    rcases List.mem_cons.mp hm with he | hrest
    · rw [← he]
      simp [List.lookup]
    · have hne : p ≠ k := by
        intro hpe
        have hmem : p ∈ rest.map Prod.fst :=
          List.mem_map.mpr ⟨(p, c), hrest, rfl⟩
        rw [hpe] at hmem
        exact (List.nodup_cons.mp (by simpa using h)).1 hmem
      have hbeq : (p == k) = false := beq_eq_false_iff_ne.mpr hne
      have hrec := ih (List.nodup_cons.mp (by simpa using h)).2 hrest
      simpa [List.lookup, hbeq] using hrec

/-- Destructor for a successful trace run: the first world satisfies the
first operation and the rest of the run succeeds on the rest. -/
theorem traceHolds_cons {op : Op} {ops : List Op} {ws : List World}
    (h : traceHolds (op :: ops) ws = true) :
    ∃ w ws', ws = w :: ws' ∧ opHolds w op = true ∧ traceHolds ops ws' = true := by
  cases ws with
  | nil => simp [traceHolds] at h
  | cons w rest =>
    simp only [traceHolds, Bool.and_eq_true] at h
    exact ⟨w, rest, rfl, h.1, h.2⟩

/-- If some visited address makes the per-address body raise or propagate,
the probe loop does not pass. -/
theorem runProbeLoop_ne_passed (step : String → ProbeResponse → StepResult)
    (responses : String → ProbeResponse) (ips : List String)
    (h : ∃ ip ∈ ips, step ip (responses ip) ≠ StepResult.passed) :
    runProbeLoop step responses ips ≠ StepResult.passed := by
  induction ips with
  | nil =>
    obtain ⟨j, hj, _⟩ := h
    exact absurd hj (List.not_mem_nil j)
  | cons ip rest ih =>
    obtain ⟨j, hj, hne⟩ := h
    rcases List.mem_cons.mp hj with hj' | hj'
    · subst hj'
      cases hS : step j (responses j) with
      | passed => exact absurd hS hne
      | policydError m => simp [runProbeLoop, hS]
      | propagated => simp [runProbeLoop, hS]
    · cases hS : step ip (responses ip) with
      | passed =>
        have := ih ⟨j, hj', hne⟩
        simpa [runProbeLoop, hS] using this
      | policydError m => simp [runProbeLoop, hS]
      | propagated => simp [runProbeLoop, hS]

/-- Claim C7: for every mapping of unique relative paths to textual content,
the bundle builder produces an archive whose entry-name list equals the keys
of the mapping and whose content per entry round-trips exactly, written at
the scratch path obtained by joining the temp dir with the zip name. -/
theorem make_zip_round_trip (tmpDir zipName : String)
    (files : List (String × String)) (h : (files.map Prod.fst).Nodup) :
    (make_zip_file_from tmpDir zipName files).1 = posixJoin tmpDir zipName ∧
    (make_zip_file_from tmpDir zipName files).2.entries.map Prod.fst
      = files.map Prod.fst ∧
    ∀ p c, (p, c) ∈ files →
      (make_zip_file_from tmpDir zipName files).2.read p = some c := by
  refine ⟨rfl, by rw [make_zip_entries], ?_⟩
  intro p c hm
  have hrev : (p, c) ∈ files.reverse := List.mem_reverse.mpr hm
  have hnodup : (files.reverse.map Prod.fst).Nodup := by
    rw [List.map_reverse]
    exact List.nodup_reverse.mpr h
  unfold ZipFile.read
  rw [make_zip_entries]
  exact lookup_of_nodup files.reverse hnodup p c hrev

theorem make_zip_round_trip_witness :
    ([("file1.yaml", "a"), ("file2.yaml", "b")].map
        (Prod.fst (α := String) (β := String))).Nodup ∧
    ((make_zip_file_from "/tmp" "good.zip"
        [("file1.yaml", "a"), ("file2.yaml", "b")]).1
      = posixJoin "/tmp" "good.zip" ∧
    (make_zip_file_from "/tmp" "good.zip"
        [("file1.yaml", "a"), ("file2.yaml", "b")]).2.entries.map Prod.fst
      = [("file1.yaml", "a"), ("file2.yaml", "b")].map Prod.fst ∧
    ∀ p c, (p, c) ∈ [("file1.yaml", "a"), ("file2.yaml", "b")] →
      (make_zip_file_from "/tmp" "good.zip"
        [("file1.yaml", "a"), ("file2.yaml", "b")]).2.read p = some c) :=
  ⟨by decide,
   make_zip_round_trip "/tmp" "good.zip"
     [("file1.yaml", "a"), ("file2.yaml", "b")] (by decide)⟩

/-- Claim C8 counterexample: the bundle builder performs no precondition
check at all.  On the empty mapping it does not fail fast: it produces an
archive artifact (an empty zip) at the scratch path; and fed a duplicated
entry list it writes both entries instead of failing. -/
theorem make_zip_accepts_empty_counterexample :
    make_zip_file_from "/tmp" "empty.zip" []
      = ("/tmp/empty.zip", ZipFile.mk []) ∧
    (make_zip_file_from "/tmp" "dup.zip"
        [("a.yaml", "x"), ("a.yaml", "y")]).2
      = ZipFile.mk [("a.yaml", "x"), ("a.yaml", "y")] := by
  decide

/-- Claim C8 (amended): the bundle builder validates nothing; for every
files mapping, including the empty one, it returns the scratch path and an
archive whose entries are exactly the mapping's items in order.  Duplicate
paths cannot arise from the Python dict input, and an empty mapping yields
an empty archive rather than a fast failure. -/
theorem make_zip_no_validation (tmpDir zipName : String)
    (files : List (String × String)) :
    (make_zip_file_from tmpDir zipName files).2.entries = files ∧
    (make_zip_file_from tmpDir zipName files).1 = posixJoin tmpDir zipName :=
  ⟨make_zip_entries tmpDir zipName files, rfl⟩

/-- Claim C9: after the bad-bundle test completes, "use-policyd-override"
is left set to "True": its trace writes that key exactly twice, both times
to "True", and the final value is "True" — nothing reverts it. -/
theorem test_002_leaves_override_enabled (tmpDir app svc : String) :
    finalConfigValue "use-policyd-override"
        (test_002_policyd_bad_yaml_trace tmpDir app svc) = some "True" ∧
    (test_002_policyd_bad_yaml_trace tmpDir app svc).filter isOverrideConfigOp
      = [setConfigOp app true, setConfigOp app true] := by
  constructor <;> rfl

/-- Claim C10: the teardown cleanup never raises.  Removal of the temp
bundle directory passes ignore_errors to rmtree, so a filesystem error is
suppressed there; and even a raising removal body would be caught by the
surrounding catch-all handler. -/
theorem teardown_cleanup_never_raises (fsError : Option String)
    (body : Except String Unit) :
    tearDownClassCleanup fsError = Except.ok () ∧
    rmtree true fsError = Except.ok () ∧
    tryExceptLog body = Except.ok () := by
  refine ⟨?_, ?_, ?_⟩
  · cases fsError <;> rfl
  · cases fsError <;> rfl
  · cases body <;> rfl

/-- Claim C4 (divergence witness): the enable transition of the helper
`_set_policy_with` does not await a positive "PO:" prefix match.  Its last
operation is the NEGATED "PO:" status await, and its trace holds no positive
"PO:" check at all, whereas the generic good-bundle path does await the
positive "PO:" prefix after enabling. -/
theorem set_policy_with_negated_status_check (tmpDir app svc : String)
    (rules : List (String × String)) :
    (set_policy_with_trace tmpDir app rules).getLast?
      = some (Op.blockUntilWlStatusInfoStartsWith app "PO:" true) ∧
    (set_policy_with_trace tmpDir app rules).filter isPositivePOCheck = [] ∧
    (test_001_policyd_good_yaml_trace tmpDir app svc).filter isPositivePOCheck
      = [Op.blockUntilWlStatusInfoStartsWith app "PO:" false] := by
  refine ⟨rfl, ?_, ?_⟩ <;>
    simp [set_policy_with_trace, test_001_policyd_good_yaml_trace,
      setConfigOp, isPositivePOCheck, List.filter]

/-- Claim C5: the probe classifies exhaustively and without downgrading:
Forbidden is DENIED, a normal return is ALLOWED, and anything else is ERROR;
an ERROR response propagates out of both verification loops instead of being
treated as the expected denial or the expected success. -/
theorem verification_probe_classification (ip : String)
    (resp : ProbeResponse) :
    (classifyProbe resp = Outcome.denied ↔ resp = ProbeResponse.forbidden) ∧
    (classifyProbe resp = Outcome.allowed ↔ resp = ProbeResponse.success) ∧
    (classifyProbe resp = Outcome.allowed ∨ classifyProbe resp = Outcome.denied
      ∨ classifyProbe resp = Outcome.error) ∧
    (classifyProbe resp = Outcome.error →
      enabledProbeStep ip resp = StepResult.propagated ∧
      disabledProbeStep ip resp = StepResult.propagated) := by
  cases resp <;>
    simp [classifyProbe, enabledProbeStep, disabledProbeStep]

theorem verification_probe_classification_witness :
    enabledProbeStep "10.5.0.3" ProbeResponse.transportFailure
      = StepResult.propagated ∧
    disabledProbeStep "10.5.0.3" ProbeResponse.transportFailure
      = StepResult.propagated :=
  (verification_probe_classification "10.5.0.3"
    ProbeResponse.transportFailure).2.2.2 rfl

/-- Claim C6: a probe outcome contradicting the expected enforcement state
raises the dedicated PolicydError.  For every address, success while the
denying override is enabled raises it, and Forbidden after the override is
disabled raises it; a successful call after disabling is the expected
return to the original ALLOWED outcome.  Whenever any visited address shows
the contradicting outcome, the corresponding loop cannot pass. -/
theorem unexpected_outcome_raises_policyd_error (ips : List String)
    (resp1 resp2 : String → ProbeResponse)
    (h1 : ∃ ip ∈ ips, resp1 ip = ProbeResponse.success)
    (h2 : ∃ ip ∈ ips, resp2 ip = ProbeResponse.forbidden) :
    runProbeLoop enabledProbeStep resp1 ips ≠ StepResult.passed ∧
    runProbeLoop disabledProbeStep resp2 ips ≠ StepResult.passed ∧
    (∀ ip, enabledProbeStep ip ProbeResponse.success
      = StepResult.policydError (admin_fail_msg ip)) ∧
    (∀ ip, disabledProbeStep ip ProbeResponse.forbidden
      = StepResult.policydError (demo_fail_msg ip)) ∧
    (∀ ip, disabledProbeStep ip ProbeResponse.success = StepResult.passed) := by
  refine ⟨?_, ?_, fun ip => rfl, fun ip => rfl, fun ip => rfl⟩
  · apply runProbeLoop_ne_passed
    obtain ⟨j, hj, hs⟩ := h1
    exact ⟨j, hj, by simp [enabledProbeStep, hs]⟩
  · apply runProbeLoop_ne_passed
    obtain ⟨j, hj, hs⟩ := h2
    exact ⟨j, hj, by simp [disabledProbeStep, hs]⟩

theorem unexpected_outcome_raises_policyd_error_witness :
    (∃ ip ∈ ["10.5.0.3"],
      (fun _ => ProbeResponse.success) ip = ProbeResponse.success) ∧
    runProbeLoop enabledProbeStep (fun _ => ProbeResponse.success)
      ["10.5.0.3"] ≠ StepResult.passed :=
  ⟨⟨"10.5.0.3", by simp, rfl⟩,
   (unexpected_outcome_raises_policyd_error ["10.5.0.3"]
     (fun _ => ProbeResponse.success) (fun _ => ProbeResponse.forbidden)
     ⟨"10.5.0.3", by simp, rfl⟩ ⟨"10.5.0.3", by simp, rfl⟩).1⟩

/-- Claim C1 counterexample: the bundle attached by the good-yaml test maps
file1.yaml to the flow-style rule text (the one starting with a brace), not
to the plain text rule1: ... — the latter is only the expected on-disk
content after the charm rewrites the bundle. -/
theorem test_001_bundle_content_counterexample :
    (test_001_policyd_good_yaml_trace "/tmp/policyd" "keystone"
        "keystone").head?
      = some (Op.attachResource "keystone" "policyd-override"
          "/tmp/policyd/good.zip"
          (ZipFile.mk [("file1.yaml", "\x7b\x27rule1\x27: \x27!\x27\x7d")])) ∧
    "\x7b\x27rule1\x27: \x27!\x27\x7d" ≠ "rule1: \x27!\x27" := by
  decide

/-- Claim C1 (amended): the good-yaml test attaches the archive mapping
file1.yaml to the flow-style rule text, and in any successful run the
observed worlds show: at the content await, every unit holds exactly the
expected text rule1: ... at /etc/<service>/policy.d/file1.yaml; at the
status await, every unit's info line starts with "PO:"; after the disable
transition, the info line of every unit no longer starts with "PO:" and the
file is missing from every unit. -/
theorem test_001_policyd_good_yaml_checks (tmpDir app svc : String)
    (ws : List World)
    (h : traceHolds (test_001_policyd_good_yaml_trace tmpDir app svc) ws
      = true) :
    (test_001_policyd_good_yaml_trace tmpDir app svc).head?
      = some (Op.attachResource app "policyd-override"
          (posixJoin tmpDir "good.zip") (ZipFile.mk goodFiles)) ∧
    ∃ wF wP wN wM,
      ws[3]? = some wF ∧ ws[4]? = some wP ∧
      ws[8]? = some wN ∧ ws[9]? = some wM ∧
      (∀ u ∈ wF.units,
        u.files.lookup (policyd_path svc "file1.yaml")
          = some "rule1: \x27!\x27") ∧
      (∀ u ∈ wP.units, infoStartsWith "PO:" u.statusInfo = true) ∧
      (∀ u ∈ wN.units, infoStartsWith "PO:" u.statusInfo = false) ∧
      (∀ u ∈ wM.units,
        u.files.lookup (policyd_path svc "file1.yaml") = none) := by
  simp only [test_001_policyd_good_yaml_trace] at h
  obtain ⟨w0, ws, rfl, _, h⟩ := traceHolds_cons h
  obtain ⟨w1, ws, rfl, _, h⟩ := traceHolds_cons h
  obtain ⟨w2, ws, rfl, _, h⟩ := traceHolds_cons h
  obtain ⟨w3, ws, rfl, h3, h⟩ := traceHolds_cons h
  obtain ⟨w4, ws, rfl, h4, h⟩ := traceHolds_cons h
  obtain ⟨w5, ws, rfl, _, h⟩ := traceHolds_cons h
  obtain ⟨w6, ws, rfl, _, h⟩ := traceHolds_cons h
  obtain ⟨w7, ws, rfl, _, h⟩ := traceHolds_cons h
  obtain ⟨w8, ws, rfl, h8, h⟩ := traceHolds_cons h
  obtain ⟨w9, ws, rfl, h9, _⟩ := traceHolds_cons h
  simp only [opHolds, statusPred, List.all_eq_true, beq_iff_eq,
    Bool.not_eq_true', Option.isNone_iff_eq_none, if_true, if_false,
    Bool.false_eq_true, Bool.true_eq_false, ite_true, ite_false,
    reduceIte] at h3 h4 h8 h9
  refine ⟨rfl, w3, w4, w8, w9, ?_, ?_, ?_, ?_, h3, h4, h8, h9⟩ <;> simp

theorem test_001_policyd_good_yaml_checks_witness :
    traceHolds
      (test_001_policyd_good_yaml_trace "/tmp/policyd" "keystone" "keystone")
      c1Worlds = true ∧
    ((test_001_policyd_good_yaml_trace "/tmp/policyd" "keystone"
        "keystone").head?
      = some (Op.attachResource "keystone" "policyd-override"
          (posixJoin "/tmp/policyd" "good.zip") (ZipFile.mk goodFiles)) ∧
    ∃ wF wP wN wM,
      c1Worlds[3]? = some wF ∧ c1Worlds[4]? = some wP ∧
      c1Worlds[8]? = some wN ∧ c1Worlds[9]? = some wM ∧
      (∀ u ∈ wF.units,
        u.files.lookup (policyd_path "keystone" "file1.yaml")
          = some "rule1: \x27!\x27") ∧
      (∀ u ∈ wP.units, infoStartsWith "PO:" u.statusInfo = true) ∧
      (∀ u ∈ wN.units, infoStartsWith "PO:" u.statusInfo = false) ∧
      (∀ u ∈ wM.units,
        u.files.lookup (policyd_path "keystone" "file1.yaml") = none)) :=
  ⟨by decide,
   test_001_policyd_good_yaml_checks "/tmp/policyd" "keystone" "keystone"
     c1Worlds (by decide)⟩

/-- Claim C2: every disable transition in the modelled policyd traces is
immediately followed by exactly the three-step double-check sequence
(negated "PO:" await, all-units-idle barrier, negated "PO:" await again),
and in the good-yaml test this sequence sits between the disable and the
file-absence await; the only disable transition occurs there, so no disable
relies on a single prefix check. -/
theorem disable_transition_triple_check (tmpDir app svc : String)
    (rules : List (String × String)) :
    followsDisableDiscipline app
      (test_001_policyd_good_yaml_trace tmpDir app svc) = true ∧
    followsDisableDiscipline app
      (test_002_policyd_bad_yaml_trace tmpDir app svc) = true ∧
    followsDisableDiscipline app
      (set_policy_with_trace tmpDir app rules) = true ∧
    (test_001_policyd_good_yaml_trace tmpDir app svc).drop 5
      = setConfigOp app false
        :: (disableDoubleCheck app
            ++ [Op.blockUntilFileMissing app (policyd_path svc "file1.yaml")]) ∧
    isDisableOp app (setConfigOp app false) = true ∧
    setConfigOp app false ∈ test_001_policyd_good_yaml_trace tmpDir app svc := by
  refine ⟨?_, ?_, ?_, rfl, by simp [isDisableOp, setConfigOp], ?_⟩ <;>
    simp [followsDisableDiscipline, isDisableOp, setConfigOp,
      disableDoubleCheck, test_001_policyd_good_yaml_trace,
      test_002_policyd_bad_yaml_trace, set_policy_with_trace]

/-- Claim C3: the bad-yaml test attaches the malformed archive mapping
file2.yaml to the broken rule text, never awaits any file content (the bad
bundle is never expected on a unit), and in any successful run the observed
worlds show: at the status await, every unit's info line starts with
"PO (broken):"; at the absence await, the file is missing from every
unit. -/
theorem test_002_policyd_bad_yaml_checks (tmpDir app svc : String)
    (ws : List World)
    (h : traceHolds (test_002_policyd_bad_yaml_trace tmpDir app svc) ws
      = true) :
    (test_002_policyd_bad_yaml_trace tmpDir app svc).head?
      = some (Op.attachResource app "policyd-override"
          (posixJoin tmpDir "bad.zip") (ZipFile.mk badFiles)) ∧
    (test_002_policyd_bad_yaml_trace tmpDir app svc).filter isContentCheckOp
      = [] ∧
    ∃ wB wM,
      ws[3]? = some wB ∧ ws[5]? = some wM ∧
      (∀ u ∈ wB.units,
        infoStartsWith "PO (broken):" u.statusInfo = true) ∧
      (∀ u ∈ wM.units,
        u.files.lookup (policyd_path svc "file2.yaml") = none) := by
  simp only [test_002_policyd_bad_yaml_trace] at h
  obtain ⟨w0, ws, rfl, _, h⟩ := traceHolds_cons h
  obtain ⟨w1, ws, rfl, _, h⟩ := traceHolds_cons h
  obtain ⟨w2, ws, rfl, _, h⟩ := traceHolds_cons h
  obtain ⟨w3, ws, rfl, h3, h⟩ := traceHolds_cons h
  obtain ⟨w4, ws, rfl, _, h⟩ := traceHolds_cons h
  obtain ⟨w5, ws, rfl, h5, _⟩ := traceHolds_cons h
  simp only [opHolds, statusPred, List.all_eq_true, beq_iff_eq,
    Bool.not_eq_true', Option.isNone_iff_eq_none, if_true, if_false,
    Bool.false_eq_true, Bool.true_eq_false, ite_true, ite_false,
    reduceIte] at h3 h5
  refine ⟨rfl, rfl, w3, w5, ?_, ?_, h3, h5⟩ <;> simp

theorem test_002_policyd_bad_yaml_checks_witness :
    traceHolds
      (test_002_policyd_bad_yaml_trace "/tmp/policyd" "keystone" "keystone")
      c3Worlds = true ∧
    ((test_002_policyd_bad_yaml_trace "/tmp/policyd" "keystone"
        "keystone").head?
      = some (Op.attachResource "keystone" "policyd-override"
          (posixJoin "/tmp/policyd" "bad.zip") (ZipFile.mk badFiles)) ∧
    (test_002_policyd_bad_yaml_trace "/tmp/policyd" "keystone"
        "keystone").filter isContentCheckOp = [] ∧
    ∃ wB wM,
      c3Worlds[3]? = some wB ∧ c3Worlds[5]? = some wM ∧
      (∀ u ∈ wB.units,
        infoStartsWith "PO (broken):" u.statusInfo = true) ∧
      (∀ u ∈ wM.units,
        u.files.lookup (policyd_path "keystone" "file2.yaml") = none)) :=
  ⟨by decide,
   test_002_policyd_bad_yaml_checks "/tmp/policyd" "keystone" "keystone"
     c3Worlds (by decide)⟩

end Policyd
